import Mathlib

/-
Verification of the per-turn simulation engine of src/io.c (Umoria):
timed status-effect updates, fixed-point hit-point/mana regeneration,
and the command interpreter's repeat-count / allow-list / key-reading
logic.

Modelling conventions:
* C `int`/`int16_t`/`int32_t` fields are modelled as `Int`; the one place
  where 16-bit truncation matters (the `int16_t` stores in `regenhp` /
  `regenmana`) applies an explicit `toInt16`.
* Calls into the display / monster services (`printMessage`, `prt_*`,
  `updateMonsters`, `disturb`, `change_speed`, `take_hit`,
  `terminalBellSound`) are pure observers of the engine state; they are
  recorded as event flags (`activated`, `deactivated`, bell counters,
  damage values) so that "fires exactly once" properties can be stated.
* Key codes are ASCII naturals; `CTRL_KEY(x) = x & 0x1f`.
-/

/-- State of one timed status effect: the countdown timer
(`py.flags.blind`, `py.flags.confused`, ...) and its paired bit in
`py.flags.status` (`PY_BLIND`, `PY_CONFUSED`, ...). -/
structure EffState where
  timer : Int
  bit : Bool
deriving DecidableEq

/-- Result of one per-turn effect update: the new timer/bit state plus
whether the one-time activation side effects fired and whether the
one-time deactivation ("wears off") side effects fired during the call. -/
structure EffResult where
  state : EffState
  activated : Bool
  deactivated : Bool
deriving DecidableEq

/-- `playerUpdateBlindness` (src/io.c): early return when the timer is
not positive; set the `PY_BLIND` bit (with its side effects) when unset;
decrement; on reaching exactly 0 clear the bit and fire the "veil of
darkness lifts" side effects. -/
def playerUpdateBlindness (s : EffState) : EffResult :=
  if s.timer ≤ 0 then ⟨s, false, false⟩
  else
    let activate := !s.bit
    let bit1 := if s.bit = false then true else s.bit
    let t := s.timer - 1
    if t = 0 then ⟨⟨t, false⟩, activate, true⟩
    else ⟨⟨t, bit1⟩, activate, false⟩

/-- `playerUpdateConfusion` (src/io.c): same template as blindness with
the `PY_CONFUSED` bit and the "less confused" wears-off side effects. -/
def playerUpdateConfusion (s : EffState) : EffResult :=
  if s.timer ≤ 0 then ⟨s, false, false⟩
  else
    let activate := !s.bit
    let bit1 := if s.bit = false then true else s.bit
    let t := s.timer - 1
    if t = 0 then ⟨⟨t, false⟩, activate, true⟩
    else ⟨⟨t, bit1⟩, activate, false⟩

/-- `playerUpdateFastness` (src/io.c): same template with the `PY_FAST`
bit; activation calls `change_speed(-1)`, deactivation `change_speed(1)`. -/
def playerUpdateFastness (s : EffState) : EffResult :=
  if s.timer ≤ 0 then ⟨s, false, false⟩
  else
    let activate := !s.bit
    let bit1 := if s.bit = false then true else s.bit
    let t := s.timer - 1
    if t = 0 then ⟨⟨t, false⟩, activate, true⟩
    else ⟨⟨t, bit1⟩, activate, false⟩

/-- `playerUpdateSlowness` (src/io.c): same template with the `PY_SLOW`
bit; activation calls `change_speed(1)`, deactivation `change_speed(-1)`. -/
def playerUpdateSlowness (s : EffState) : EffResult :=
  if s.timer ≤ 0 then ⟨s, false, false⟩
  else
    let activate := !s.bit
    let bit1 := if s.bit = false then true else s.bit
    let t := s.timer - 1
    if t = 0 then ⟨⟨t, false⟩, activate, true⟩
    else ⟨⟨t, bit1⟩, activate, false⟩

/-- `playerUpdateInvulnerability` (src/io.c): same template with the
`PY_INVULN` bit; activation adds 100 to `pac`/`dis_ac`, deactivation
removes it again. -/
def playerUpdateInvulnerability (s : EffState) : EffResult :=
  if s.timer ≤ 0 then ⟨s, false, false⟩
  else
    let activate := !s.bit
    let bit1 := if s.bit = false then true else s.bit
    let t := s.timer - 1
    if t = 0 then ⟨⟨t, false⟩, activate, true⟩
    else ⟨⟨t, bit1⟩, activate, false⟩

/-- `playerUpdateBlessedness` (src/io.c): same template with the
`PY_BLESSED` bit; activation adds 5/5/2/2 to `bth`/`bthb`/`pac`/`dis_ac`,
deactivation subtracts them again. -/
def playerUpdateBlessedness (s : EffState) : EffResult :=
  if s.timer ≤ 0 then ⟨s, false, false⟩
  else
    let activate := !s.bit
    let bit1 := if s.bit = false then true else s.bit
    let t := s.timer - 1
    if t = 0 then ⟨⟨t, false⟩, activate, true⟩
    else ⟨⟨t, bit1⟩, activate, false⟩

/-- `playerUpdateDetectInvisible` (src/io.c): same template with the
`PY_DET_INV` bit; activation sets `see_inv` and lights creatures,
deactivation recomputes bonuses and unlights creatures. -/
def playerUpdateDetectInvisible (s : EffState) : EffResult :=
  if s.timer ≤ 0 then ⟨s, false, false⟩
  else
    let activate := !s.bit
    let bit1 := if s.bit = false then true else s.bit
    let t := s.timer - 1
    if t = 0 then ⟨⟨t, false⟩, activate, true⟩
    else ⟨⟨t, bit1⟩, activate, false⟩

/-- `playerUpdateInfraVision` (src/io.c): same template with the
`PY_TIM_INFRA` bit; activation increments `see_infra`, deactivation
decrements it. -/
def playerUpdateInfraVision (s : EffState) : EffResult :=
  if s.timer ≤ 0 then ⟨s, false, false⟩
  else
    let activate := !s.bit
    let bit1 := if s.bit = false then true else s.bit
    let t := s.timer - 1
    if t = 0 then ⟨⟨t, false⟩, activate, true⟩
    else ⟨⟨t, bit1⟩, activate, false⟩

/-- `playerUpdateFearState` (src/io.c): the fear template has an
exception: while `shero + hero > 0` an inactive fear timer is zeroed
instead of setting the `PY_FEAR` bit, and an active fear timer is forced
to 1 just before the shared decrement, so the "feel bolder" deactivation
fires on this very update. `heroTotal` is `py.flags.shero + py.flags.hero`. -/
def playerUpdateFearState (heroTotal : Int) (s : EffState) : EffResult :=
  if s.timer ≤ 0 then ⟨s, false, false⟩
  else
    let act : Bool :=
      if s.bit = false then (if 0 < heroTotal then false else true) else false
    let t1 : Int :=
      if s.bit = false then (if 0 < heroTotal then 0 else s.timer)
      else (if 0 < heroTotal then 1 else s.timer)
    let bit1 : Bool :=
      if s.bit = false then (if 0 < heroTotal then s.bit else true)
      else s.bit
    let t2 := t1 - 1
    if t2 = 0 then ⟨⟨t2, false⟩, act, true⟩
    else ⟨⟨t2, bit1⟩, act, false⟩

/-- Result of `playerUpdatePoisonedState`: timer/bit update events plus
the damage passed to `take_hit` (`none` when `take_hit` was not called,
i.e. on early return or on the wears-off branch). -/
structure PoisonResult where
  state : EffState
  activated : Bool
  deactivated : Bool
  damageDealt : Option Int
deriving DecidableEq

/-- Forget the poison damage, keeping the common timer/bit/event part. -/
def PoisonResult.toEff (r : PoisonResult) : EffResult :=
  ⟨r.state, r.activated, r.deactivated⟩

/-- `playerUpdatePoisonedState` (src/io.c): the template with the
`PY_POISONED` bit; when the decremented timer is still positive the
player takes damage chosen by a `switch` on `con_adj()` (the constitution
adjustment) gated by the global turn counter. `damage` starts at 0 so a
`con_adj()` outside -4..6 deals 0. -/
def playerUpdatePoisonedState (conAdj turn : Int) (s : EffState) : PoisonResult :=
  if s.timer ≤ 0 then ⟨s, false, false, none⟩
  else
    let activate := !s.bit
    let bit1 := if s.bit = false then true else s.bit
    let t := s.timer - 1
    if t = 0 then ⟨⟨t, false⟩, activate, true, none⟩
    else
      let damage : Int :=
        if conAdj = -4 then 4
        else if conAdj = -3 ∨ conAdj = -2 then 3
        else if conAdj = -1 then 2
        else if conAdj = 0 then 1
        else if conAdj = 1 ∨ conAdj = 2 ∨ conAdj = 3 then
          (if turn % 2 = 0 then 1 else 0)
        else if conAdj = 4 ∨ conAdj = 5 then
          (if turn % 3 = 0 then 1 else 0)
        else if conAdj = 6 then
          (if turn % 4 = 0 then 1 else 0)
        else 0
      ⟨⟨t, bit1⟩, activate, false, some damage⟩

/-- The slice of `py` touched by `playerUpdateHeroStatus`: both hero
timers, their `PY_HERO` / `PY_SHERO` status bits, and the hp / to-hit
fields their activation side effects modify. -/
structure HeroPState where
  hero : Int
  shero : Int
  statusHero : Bool
  statusShero : Bool
  mhp : Int
  chp : Int
  chpFrac : Nat
  bth : Int
  bthb : Int
deriving DecidableEq

/-- Activation / deactivation side-effect events of one
`playerUpdateHeroStatus` call. -/
structure HeroEvents where
  actHero : Bool
  deactHero : Bool
  actShero : Bool
  deactShero : Bool
deriving DecidableEq

/-- `playerActivateHeroism` (src/io.c): set `PY_HERO`, add 10 to
max/current hp and 12 to the to-hit bonuses. -/
def playerActivateHeroism (p : HeroPState) : HeroPState :=
  { p with statusHero := true, mhp := p.mhp + 10, chp := p.chp + 10,
           bth := p.bth + 12, bthb := p.bthb + 12 }

/-- `playerDisableHeroism` (src/io.c): clear `PY_HERO`, remove the 10
bonus hp (clamping current hp to the reduced max and zeroing the
fractional accumulator if it exceeded it) and the 12 to-hit bonus. -/
def playerDisableHeroism (p : HeroPState) : HeroPState :=
  let mhp1 := p.mhp - 10
  let chp1 := if mhp1 < p.chp then mhp1 else p.chp
  let chpFrac1 := if mhp1 < p.chp then 0 else p.chpFrac
  { p with statusHero := false, mhp := mhp1, chp := chp1, chpFrac := chpFrac1,
           bth := p.bth - 12, bthb := p.bthb - 12 }

/-- `playerActivateSuperHeroism` (src/io.c): set `PY_SHERO`, add 20 to
max/current hp and 24 to the to-hit bonuses. -/
def playerActivateSuperHeroism (p : HeroPState) : HeroPState :=
  { p with statusShero := true, mhp := p.mhp + 20, chp := p.chp + 20,
           bth := p.bth + 24, bthb := p.bthb + 24 }

/-- `playerDisableSuperHeroism` (src/io.c): clear `PY_SHERO`, remove the
20 bonus hp (with the same clamp) and the 24 to-hit bonus. -/
def playerDisableSuperHeroism (p : HeroPState) : HeroPState :=
  let mhp1 := p.mhp - 20
  let chp1 := if mhp1 < p.chp then mhp1 else p.chp
  let chpFrac1 := if mhp1 < p.chp then 0 else p.chpFrac
  { p with statusShero := false, mhp := mhp1, chp := chp1, chpFrac := chpFrac1,
           bth := p.bth - 24, bthb := p.bthb - 24 }

/-- The heroism block of `playerUpdateHeroStatus` (src/io.c): activate
if `PY_HERO` unset, decrement, disable on reaching exactly 0. -/
def heroismBlock (p : HeroPState) : HeroPState × Bool × Bool :=
  if 0 < p.hero then
    let act : Bool := p.statusHero = false
    let pa := if p.statusHero = false then playerActivateHeroism p else p
    let pb := { pa with hero := pa.hero - 1 }
    if pb.hero = 0 then (playerDisableHeroism pb, act, true) else (pb, act, false)
  else (p, false, false)

/-- The super-heroism block of `playerUpdateHeroStatus` (src/io.c). -/
def superHeroismBlock (p : HeroPState) : HeroPState × Bool × Bool :=
  if 0 < p.shero then
    let act : Bool := p.statusShero = false
    let pa := if p.statusShero = false then playerActivateSuperHeroism p else p
    let pb := { pa with shero := pa.shero - 1 }
    if pb.shero = 0 then (playerDisableSuperHeroism pb, act, true) else (pb, act, false)
  else (p, false, false)

/-- `playerUpdateHeroStatus` (src/io.c): the heroism block followed by
the super-heroism block, in source order. -/
def playerUpdateHeroStatus (p : HeroPState) : HeroPState × HeroEvents :=
  let r1 := heroismBlock p
  let r2 := superHeroismBlock r1.1
  (r2.1, ⟨r1.2.1, r1.2.2, r2.2.1, r2.2.2⟩)

/-- Type invariant relating a status bit to its timer before an update:
the bit is only set while the timer is still positive. -/
def effInv (s : EffState) : Prop := s.bit = true → 0 < s.timer

/-- What one template update must establish, relative to the pre-state
`s`: the bit tracks timer-positivity after the call, the activation side
effects fire exactly on the inactive-to-active edge, and the
deactivation side effects fire exactly when the timer steps from 1 to 0. -/
def effPost (s : EffState) (r : EffResult) : Prop :=
  (r.state.bit = true ↔ 0 < r.state.timer) ∧
  (r.activated = true ↔ (0 < s.timer ∧ s.bit = false)) ∧
  (r.deactivated = true ↔ s.timer = 1)

/-- What `playerUpdateHeroStatus` must establish for both of its paired
timer/bit pairs. -/
def heroPost (p : HeroPState) (r : HeroPState × HeroEvents) : Prop :=
  ((r.1.statusHero = true ↔ 0 < r.1.hero) ∧
   ((r.2.actHero = true) ↔ (0 < p.hero ∧ p.statusHero = false)) ∧
   ((r.2.deactHero = true) ↔ p.hero = 1)) ∧
  ((r.1.statusShero = true ↔ 0 < r.1.shero) ∧
   ((r.2.actShero = true) ↔ (0 < p.shero ∧ p.statusShero = false)) ∧
   ((r.2.deactShero = true) ↔ p.shero = 1))

/-- Modelled from the spec: `MAX_SHORT` (constant.h is not under src) —
the saturation value used by the overflow check, the largest value of
the signed 16-bit hit-point domain. -/
def MAX_SHORT : Int := 32767

/-- Modelled from the spec: `PLAYER_REGEN_HPBASE` (constant.h is not
under src) — the "small base constant (bias) added before the
multiply-accumulate so that regeneration never stalls at zero"; the
historical Umoria value is 1442 and any positive value fits the spec. -/
def PLAYER_REGEN_HPBASE : Int := 1442

/-- Modelled from the spec: `PLAYER_REGEN_MNBASE` (constant.h is not
under src) — the mana twin of the regeneration bias; the historical
Umoria value is 314. -/
def PLAYER_REGEN_MNBASE : Int := 314

/-- Truncation of an `Int` to the `int16_t` domain (two's complement),
as performed by the C stores into `py.misc.chp` / `py.misc.cmana`. -/
def toInt16 (x : Int) : Int := (x + 32768) % 65536 - 32768

/-- The `py.misc` slice written by `regenhp`: current hit points
(`int16_t`) and the 16.16 fractional accumulator (`uint16_t`). The
read-only maximum `mhp` is passed separately. -/
structure RegenState where
  chp : Int
  chpFrac : Nat
deriving DecidableEq

/-- `regenhp` (src/io.c): 16.16 fixed-point hit-point regeneration.
`new_chp = mhp * percent + PLAYER_REGEN_HPBASE`; its high 16 bits
(arithmetic shift, `Int.ediv` by 65536) are added to `chp` with the C
`int16_t` store truncation and the explicit saturate-to-`MAX_SHORT`
overflow check; its low 16 bits (`Int.emod` by 65536) are added to the
carried fractional accumulator, carrying one point into `chp` past
2^16; finally `chp` is clamped to `mhp` with the accumulator zeroed
("must set frac to zero even if equal"). Also returns whether
`prt_chp` was called, i.e. whether `chp` changed. -/
def regenhp (percent mhp : Int) (s : RegenState) : RegenState × Bool :=
  let old_chp := s.chp
  let new_chp : Int := mhp * percent + PLAYER_REGEN_HPBASE
  let chp1 := toInt16 (s.chp + Int.ediv new_chp 65536)
  let chp2 := if chp1 < 0 ∧ 0 < old_chp then MAX_SHORT else chp1
  let new_chp_frac : Int := Int.emod new_chp 65536 + s.chpFrac
  let chp3 := if 65536 ≤ new_chp_frac then toInt16 (chp2 + 1) else chp2
  let frac3 : Nat :=
    if 65536 ≤ new_chp_frac then (new_chp_frac - 65536).toNat % 65536
    else new_chp_frac.toNat % 65536
  let chp4 := if mhp ≤ chp3 then mhp else chp3
  let frac4 := if mhp ≤ chp3 then 0 else frac3
  (⟨chp4, frac4⟩, old_chp != chp4)

/-- The `py.misc` slice written by `regenmana`: current mana
(`int16_t`) and its fractional accumulator (`uint16_t`). -/
structure ManaRegenState where
  cmana : Int
  cmanaFrac : Nat
deriving DecidableEq

/-- `regenmana` (src/io.c): the mana twin of `regenhp`, identical up to
field names and the `PLAYER_REGEN_MNBASE` bias. -/
def regenmana (percent mana : Int) (s : ManaRegenState) : ManaRegenState × Bool :=
  let old_cmana := s.cmana
  let new_mana : Int := mana * percent + PLAYER_REGEN_MNBASE
  let cmana1 := toInt16 (s.cmana + Int.ediv new_mana 65536)
  let cmana2 := if cmana1 < 0 ∧ 0 < old_cmana then MAX_SHORT else cmana1
  let new_mana_frac : Int := Int.emod new_mana 65536 + s.cmanaFrac
  let cmana3 := if 65536 ≤ new_mana_frac then toInt16 (cmana2 + 1) else cmana2
  let frac3 : Nat :=
    if 65536 ≤ new_mana_frac then (new_mana_frac - 65536).toNat % 65536
    else new_mana_frac.toNat % 65536
  let cmana4 := if mana ≤ cmana3 then mana else cmana3
  let frac4 := if mana ≤ cmana3 then 0 else frac3
  (⟨cmana4, frac4⟩, old_cmana != cmana4)

/-- `regenhp` iterated `n` times with a fixed rate and maximum. -/
def regenhpIter (percent mhp : Int) (s : RegenState) : Nat → RegenState
  | 0 => s
  | n + 1 => regenhpIter percent mhp (regenhp percent mhp s).1 n

/-- The amount adjustment and gating of `playerUpdateRegeneration`
(src/io.c): the regeneration amount is scaled 3/2 for the `regenerate`
trait and doubled while searching or resting; `regenhp` runs only when
`poisoned < 1` and `chp < mhp`, `regenmana` only when `cmana < mana`.
Returns the adjusted amount and the two "was called" flags. -/
def playerUpdateRegeneration (regenerate searchStatus : Bool)
    (rest poisoned chp mhp cmana mana amount : Int) : Int × Bool × Bool :=
  let a1 := if regenerate then amount * 3 / 2 else amount
  let a2 := if searchStatus = true ∨ rest ≠ 0 then a1 * 2 else a1
  (a2, decide (poisoned < 1 ∧ chp < mhp), decide (cmana < mana))

/-- Modelled from the spec: the `DELETE` key code (constant.h is not
under src) — the backspace-equivalent key, ASCII 0x7f. -/
def DELETE : Nat := 127

/-- Modelled from the spec: the `CTRL_KEY` macro (headers are not under
src) — the control-code encoding, the letter code reduced to its low
five bits (letter minus 0x40 or 0x60). -/
def CTRL_KEY (c : Nat) : Nat := c % 32

/-- Modelled from the spec: the `ESCAPE` key code (constant.h is not
under src) — the reserved escape key, ASCII 27. -/
def ESCAPE : Nat := 27

/-- The repeat-count digit-entry loop of `executeInputCommands`
(src/io.c): DELETE or CTRL-H replaces the counter by `counter / 10`; a
digit key appends in base 10 unless the counter already exceeds 99, in
which case `terminalBellSound` rings and the counter is unchanged; the
first other key ends the loop and remains the pending command. Returns
the counter, the number of bell rings, and the unconsumed keys. -/
def countLoop : Nat → Nat → List Nat → Nat × Nat × List Nat
  | counter, bells, [] => (counter, bells, [])
  | counter, bells, c :: rest =>
    if c = DELETE ∨ c = CTRL_KEY 72 then countLoop (counter / 10) bells rest
    else if 48 ≤ c ∧ c ≤ 57 then
      if 99 < counter then countLoop counter (bells + 1) rest
      else countLoop (counter * 10 + (c - 48)) bells rest
    else (counter, bells, c :: rest)

/-- The digit-entry loop followed by the zero normalisation of
`executeInputCommands` (src/io.c): a zero final counter becomes 99
("repeat until interrupted"). Returns the final repeat count and the
number of bell rings. -/
def repeatCountFinal (keys : List Nat) : Nat × Nat :=
  let r := countLoop 0 0 keys
  (if r.1 = 0 then 99 else r.1, r.2.1)

/-- `valid_countcommand` (src/io.c): the static allow-list deciding
whether a command may carry a repeat count. The first pattern group is
the explicit `false` cases of the C switch, in source order: Q, ^W, ^X,
=, brace, slash, <, >, ?, C, E, F, G, V, hash, z, P, c, d, e, t, i, x,
m, p, q, r, T, Z, v, w, W, X, ^A, backslash, ^I, *, colon, ^T, ^E, ^F,
^S, ^Q. The second group is the `true` cases: ^P, ESCAPE, space, -, b,
f, j, n, h, l, y, k, u, period, B, J, N, H, L, Y, K, U, D, R, ^Y, ^K,
^U, ^L, ^N, ^J, ^B, ^H, S, o, s, ^D, ^G, +. The default is `false`. -/
def valid_countcommand (c : Nat) : Bool :=
  match c with
  | 81 | 23 | 24 | 61 | 123 | 47 | 60 | 62 | 63 | 67 | 69 | 70 | 71 | 86 | 35
  | 122 | 80 | 99 | 100 | 101 | 116 | 105 | 120 | 109 | 112 | 113 | 114 | 84
  | 90 | 118 | 119 | 87 | 88 | 1 | 92 | 9 | 42 | 58 | 20 | 5 | 6 | 19 | 17 =>
    false
  | 16 | 27 | 32 | 45 | 98 | 102 | 106 | 110 | 104 | 108 | 121 | 107 | 117 | 46
  | 66 | 74 | 78 | 72 | 76 | 89 | 75 | 85 | 68 | 82 | 25 | 11 | 21 | 12 | 14
  | 10 | 2 | 8 | 83 | 111 | 115 | 4 | 7 | 43 =>
    true
  | _ => false

/-- The `counter > 0` check of `executeInputCommands` (src/io.c),
entered with `player_free_turn` false and `command_count` 0: a counted
command outside the allow-list grants a free turn, is replaced by the
no-op space command and prints "Invalid command with a count."; an
allowed one installs the counter into `command_count`. Returns
(free turn, pending command, command_count, message printed). -/
def commandCountCheck (counter cmd : Nat) : Bool × Nat × Nat × Bool :=
  if 0 < counter then
    if valid_countcommand cmd = false then (true, 32, 0, true)
    else (false, cmd, counter, false)
  else (false, cmd, 0, false)

/-- The global state read and written by `inkey` (src/io.c, terminal
half): the EOF occurrence counter `eof_flag`, the message flag
`msg_flag`, and the pending repeat count `command_count`. -/
structure InkeyState where
  eofFlag : Int
  msgFlag : Bool
  commandCount : Nat
deriving DecidableEq

/-- Outcome of one `inkey` call: a returned key; a plain `exit_game`
(no character generated yet, or the character already saved); or the
panic-save path, where `saved` records whether `save_char` succeeded
(on failure `death` is set) before the process exits. -/
inductive InkeyResult where
  | key (c : Nat)
  | exitNoSave
  | exitPanic (saved : Bool)
deriving DecidableEq

/-- The read loop of `inkey` (src/io.c): `input` is the remaining
keystroke stream and an exhausted stream models `getch()` returning
EOF. A CTRL-R key is silently consumed (the screen is refreshed and
the terminal re-initialised by `moriaterm`) and reading continues; any
other key is returned. At EOF, `msg_flag` is cleared and `eof_flag`
incremented; the process exits outright when no character is generated
or it is already saved; otherwise `disturb(1, 0)` is raised and ESCAPE
returned, except that once `eof_flag` exceeds 100 the panic save runs
and the process exits. Returns the outcome, the final state and
whether `disturb` was called. -/
def inkeyLoop (characterGenerated characterSaved saveOk : Bool)
    (s : InkeyState) : List Nat → InkeyResult × InkeyState × Bool
  | [] =>
    let s1 : InkeyState := { s with msgFlag := false, eofFlag := s.eofFlag + 1 }
    if characterGenerated = false ∨ characterSaved = true then
      (.exitNoSave, s1, false)
    else if 100 < s1.eofFlag then (.exitPanic saveOk, s1, true)
    else (.key ESCAPE, s1, true)
  | c :: rest =>
    if c ≠ CTRL_KEY 82 then (.key c, s, false)
    else inkeyLoop characterGenerated characterSaved saveOk s rest

/-- `inkey` (src/io.c): dumps the IO buffer, resets `command_count` to
0 ("just to be safe"), then enters the read loop. -/
def inkey (characterGenerated characterSaved saveOk : Bool)
    (input : List Nat) (s : InkeyState) : InkeyResult × InkeyState × Bool :=
  inkeyLoop characterGenerated characterSaved saveOk
    { s with commandCount := 0 } input

theorem effPost_blindness (s : EffState) (h : effInv s) :
    effPost s (playerUpdateBlindness s) := by
  obtain ⟨t, b⟩ := s
  simp only [effInv] at h
  cases b <;>
    simp only [playerUpdateBlindness, effPost] <;>
    split_ifs <;> simp_all <;> omega

theorem effPost_confusion (s : EffState) (h : effInv s) :
    effPost s (playerUpdateConfusion s) :=
  effPost_blindness s h

theorem effPost_fastness (s : EffState) (h : effInv s) :
    effPost s (playerUpdateFastness s) :=
  effPost_blindness s h

theorem effPost_slowness (s : EffState) (h : effInv s) :
    effPost s (playerUpdateSlowness s) :=
  effPost_blindness s h

theorem effPost_invulnerability (s : EffState) (h : effInv s) :
    effPost s (playerUpdateInvulnerability s) :=
  effPost_blindness s h

theorem effPost_blessedness (s : EffState) (h : effInv s) :
    effPost s (playerUpdateBlessedness s) :=
  effPost_blindness s h

theorem effPost_detectInvisible (s : EffState) (h : effInv s) :
    effPost s (playerUpdateDetectInvisible s) :=
  effPost_blindness s h

theorem effPost_infraVision (s : EffState) (h : effInv s) :
    effPost s (playerUpdateInfraVision s) :=
  effPost_blindness s h

theorem poison_toEff_eq (conAdj turn : Int) (s : EffState) :
    (playerUpdatePoisonedState conAdj turn s).toEff = playerUpdateBlindness s := by
  obtain ⟨t, b⟩ := s
  by_cases h1 : t ≤ 0
  · simp [playerUpdatePoisonedState, playerUpdateBlindness, PoisonResult.toEff, h1]
  · by_cases h2 : t - 1 = 0 <;>
      simp [playerUpdatePoisonedState, playerUpdateBlindness, PoisonResult.toEff, h1, h2]

theorem effPost_poison (conAdj turn : Int) (s : EffState) (h : effInv s) :
    effPost s (playerUpdatePoisonedState conAdj turn s).toEff := by
  rw [poison_toEff_eq]
  exact effPost_blindness s h

theorem effPost_fear_noHero (heroTotal : Int) (s : EffState)
    (hh : heroTotal ≤ 0) (h : effInv s) :
    effPost s (playerUpdateFearState heroTotal s) := by
  obtain ⟨t, b⟩ := s
  have hnh : ¬ 0 < heroTotal := by omega
  cases b with
  | false =>
    by_cases h1 : t ≤ 0
    · simp [playerUpdateFearState, effPost, h1] <;> omega
    · by_cases h2 : t - 1 = 0 <;>
        simp [playerUpdateFearState, effPost, h1, h2, hnh] <;> omega
  | true =>
    have ht : 0 < t := h rfl
    have h1 : ¬ t ≤ 0 := by omega
    by_cases h2 : t - 1 = 0 <;>
      simp [playerUpdateFearState, effPost, h1, h2, hnh] <;> omega

theorem fear_bit_iff_timer (heroTotal : Int) (s : EffState) (h : effInv s) :
    ((playerUpdateFearState heroTotal s).state.bit = true ↔
      0 < (playerUpdateFearState heroTotal s).state.timer) := by
  obtain ⟨t, b⟩ := s
  cases b with
  | false =>
    by_cases h1 : t ≤ 0
    · simp [playerUpdateFearState, h1] <;> omega
    · by_cases hh : 0 < heroTotal
      · simp [playerUpdateFearState, h1, hh]
      · by_cases h2 : t - 1 = 0 <;>
          simp [playerUpdateFearState, h1, hh, h2] <;> omega
  | true =>
    have ht : 0 < t := h rfl
    have h1 : ¬ t ≤ 0 := by omega
    by_cases hh : 0 < heroTotal
    · simp [playerUpdateFearState, h1, hh]
    · by_cases h2 : t - 1 = 0 <;>
        simp [playerUpdateFearState, h1, hh, h2] <;> omega

theorem heroismBlock_spec (p : HeroPState) (hH : p.statusHero = true → 0 < p.hero) :
    ((heroismBlock p).1.statusHero = true ↔ 0 < (heroismBlock p).1.hero) ∧
    ((heroismBlock p).2.1 = true ↔ (0 < p.hero ∧ p.statusHero = false)) ∧
    ((heroismBlock p).2.2 = true ↔ p.hero = 1) ∧
    (heroismBlock p).1.shero = p.shero ∧
    (heroismBlock p).1.statusShero = p.statusShero := by
  obtain ⟨hero, shero, sH, sS, mhp, chp, chpFrac, bth, bthb⟩ := p
  cases sH with
  | false =>
    by_cases h1 : 0 < hero
    · by_cases h2 : hero - 1 = 0 <;>
        simp [heroismBlock, playerActivateHeroism, playerDisableHeroism, h1, h2] <;>
        omega
    · simp [heroismBlock, h1] <;> omega
  | true =>
    have ht : 0 < hero := hH rfl
    by_cases h2 : hero - 1 = 0 <;>
      simp [heroismBlock, playerDisableHeroism, ht, h2] <;> omega

theorem superHeroismBlock_spec (p : HeroPState)
    (hS : p.statusShero = true → 0 < p.shero) :
    ((superHeroismBlock p).1.statusShero = true ↔ 0 < (superHeroismBlock p).1.shero) ∧
    ((superHeroismBlock p).2.1 = true ↔ (0 < p.shero ∧ p.statusShero = false)) ∧
    ((superHeroismBlock p).2.2 = true ↔ p.shero = 1) ∧
    (superHeroismBlock p).1.hero = p.hero ∧
    (superHeroismBlock p).1.statusHero = p.statusHero := by
  obtain ⟨hero, shero, sH, sS, mhp, chp, chpFrac, bth, bthb⟩ := p
  cases sS with
  | false =>
    by_cases h1 : 0 < shero
    · by_cases h2 : shero - 1 = 0 <;>
        simp [superHeroismBlock, playerActivateSuperHeroism,
          playerDisableSuperHeroism, h1, h2] <;>
        omega
    · simp [superHeroismBlock, h1] <;> omega
  | true =>
    have ht : 0 < shero := hS rfl
    by_cases h2 : shero - 1 = 0 <;>
      simp [superHeroismBlock, playerDisableSuperHeroism, ht, h2] <;> omega

theorem heroPost_update (p : HeroPState)
    (hH : p.statusHero = true → 0 < p.hero)
    (hS : p.statusShero = true → 0 < p.shero) :
    heroPost p (playerUpdateHeroStatus p) := by
  obtain ⟨hb1, ha1, hd1, hfs1, hfss1⟩ := heroismBlock_spec p hH
  have hS1 : (heroismBlock p).1.statusShero = true → 0 < (heroismBlock p).1.shero := by
    rw [hfss1, hfs1]; exact hS
  obtain ⟨hb2, ha2, hd2, hfh2, hfsh2⟩ := superHeroismBlock_spec (heroismBlock p).1 hS1
  rw [hfs1, hfss1] at ha2
  rw [hfs1] at hd2
  unfold playerUpdateHeroStatus heroPost
  refine ⟨⟨?_, ha1, hd1⟩, ⟨?_, ha2, hd2⟩⟩
  · rw [hfsh2, hfh2]; exact hb1
  · exact hb2

/-- C1: for every timed status effect with a paired status bit
(blindness, confusion, fear, poison, fast, slow, heroism, super-heroism,
invulnerability, blessedness, detect-invisible, timed infravision),
after the per-turn update the bit is set iff the timer is > 0, the
activation side effects fire exactly on the inactive-with-positive-timer
edge, and the deactivation side effects fire exactly when the timer
steps from 1 to 0 — so neither fires on ticks where the timer merely
stays positive. For fear the edge behaviour is stated when no heroism is
active (its heroism exception is claim C7); the bit-iff-timer invariant
for fear holds for every heroism value. Resting and paralysis have no
paired bit and are excepted by the claim itself. -/
theorem C1_status_bit_iff_timer (s : EffState) (hs : effInv s)
    (p : HeroPState) (hH : p.statusHero = true → 0 < p.hero)
    (hS : p.statusShero = true → 0 < p.shero)
    (conAdj turn heroTotal : Int) (hNoHero : heroTotal ≤ 0) :
    effPost s (playerUpdateBlindness s) ∧
    effPost s (playerUpdateConfusion s) ∧
    effPost s (playerUpdateFearState heroTotal s) ∧
    (∀ ht : Int, ((playerUpdateFearState ht s).state.bit = true ↔
        0 < (playerUpdateFearState ht s).state.timer)) ∧
    effPost s (playerUpdatePoisonedState conAdj turn s).toEff ∧
    effPost s (playerUpdateFastness s) ∧
    effPost s (playerUpdateSlowness s) ∧
    effPost s (playerUpdateInvulnerability s) ∧
    effPost s (playerUpdateBlessedness s) ∧
    effPost s (playerUpdateDetectInvisible s) ∧
    effPost s (playerUpdateInfraVision s) ∧
    heroPost p (playerUpdateHeroStatus p) :=
  ⟨effPost_blindness s hs, effPost_confusion s hs,
   effPost_fear_noHero heroTotal s hNoHero hs,
   fun ht => fear_bit_iff_timer ht s hs,
   effPost_poison conAdj turn s hs,
   effPost_fastness s hs, effPost_slowness s hs,
   effPost_invulnerability s hs, effPost_blessedness s hs,
   effPost_detectInvisible s hs, effPost_infraVision s hs,
   heroPost_update p hH hS⟩

/-- Witness for C1 at a concrete state: a blindness timer of 3 with the
bit still unset satisfies the update contract. -/
theorem C1_status_bit_iff_timer_witness :
    effPost ⟨3, false⟩ (playerUpdateBlindness ⟨3, false⟩) :=
  (C1_status_bit_iff_timer ⟨3, false⟩ (by simp [effInv])
    ⟨2, 2, false, false, 30, 20, 0, 5, 5⟩ (by decide) (by decide)
    0 0 0 (by decide)).1

/-- C2: on every turn where the poison timer is still positive after its
decrement, `playerUpdatePoisonedState` deals damage via `take_hit`
according to the constitution-adjustment table: -4 deals 4 every turn,
-3 and -2 deal 3, -1 deals 2, 0 deals 1 every turn, 1..3 deal 1 exactly when
the global turn counter is divisible by 2, 4..5 exactly when divisible
by 3, and 6 exactly when the turn counter modulo 4 is 0. -/
theorem C2_poison_damage_schedule (s : EffState) (conAdj turn : Int)
    (h : 1 < s.timer) :
    (conAdj = -4 →
      (playerUpdatePoisonedState conAdj turn s).damageDealt = some 4) ∧
    ((conAdj = -3 ∨ conAdj = -2) →
      (playerUpdatePoisonedState conAdj turn s).damageDealt = some 3) ∧
    (conAdj = -1 →
      (playerUpdatePoisonedState conAdj turn s).damageDealt = some 2) ∧
    (conAdj = 0 →
      (playerUpdatePoisonedState conAdj turn s).damageDealt = some 1) ∧
    ((conAdj = 1 ∨ conAdj = 2 ∨ conAdj = 3) →
      (playerUpdatePoisonedState conAdj turn s).damageDealt =
        some (if turn % 2 = 0 then 1 else 0)) ∧
    ((conAdj = 4 ∨ conAdj = 5) →
      (playerUpdatePoisonedState conAdj turn s).damageDealt =
        some (if turn % 3 = 0 then 1 else 0)) ∧
    (conAdj = 6 →
      (playerUpdatePoisonedState conAdj turn s).damageDealt =
        some (if turn % 4 = 0 then 1 else 0)) := by
  have h1 : ¬ s.timer ≤ 0 := by omega
  have h2 : ¬ s.timer - 1 = 0 := by omega
  refine ⟨fun hc => ?_, fun hc => ?_, fun hc => ?_, fun hc => ?_,
    fun hc => ?_, fun hc => ?_, fun hc => ?_⟩
  · subst hc; simp [playerUpdatePoisonedState, h1, h2]
  · rcases hc with rfl | rfl <;> simp [playerUpdatePoisonedState, h1, h2]
  · subst hc; simp [playerUpdatePoisonedState, h1, h2]
  · subst hc; simp [playerUpdatePoisonedState, h1, h2]
  · rcases hc with rfl | rfl | rfl <;> simp [playerUpdatePoisonedState, h1, h2]
  · rcases hc with rfl | rfl <;> simp [playerUpdatePoisonedState, h1, h2]
  · subst hc; simp [playerUpdatePoisonedState, h1, h2]

/-- Witness for C2: with a poison timer of 5, constitution adjustment 6
and global turn 8 (a multiple of 4), one point of poison damage is dealt. -/
theorem C2_poison_damage_schedule_witness :
    (playerUpdatePoisonedState 6 8 ⟨5, true⟩).damageDealt =
      some (if (8 : Int) % 4 = 0 then 1 else 0) :=
  (C2_poison_damage_schedule ⟨5, true⟩ 6 8 (by decide)).2.2.2.2.2.2 rfl

/-- C7: while heroism or super-heroism is active (`shero + hero > 0`),
fear is suppressed: the `PY_FEAR` bit is never newly set (no activation
side effects fire), and if fear was already active its timer is forced
to 1 immediately before the shared decrement, so the update ends with
timer 0, the bit cleared and the "feel bolder" deactivation fired — the
effect expires at this very tick edge instead of accumulating. -/
theorem C7_fear_suppressed_by_heroism (s : EffState) (heroTotal : Int)
    (hh : 0 < heroTotal) (ht : 0 < s.timer) :
    (playerUpdateFearState heroTotal s).activated = false ∧
    (s.bit = false →
      (playerUpdateFearState heroTotal s).state.bit = false ∧
      (playerUpdateFearState heroTotal s).deactivated = false) ∧
    (s.bit = true →
      (playerUpdateFearState heroTotal s).state = ⟨0, false⟩ ∧
      (playerUpdateFearState heroTotal s).deactivated = true) := by
  obtain ⟨t, b⟩ := s
  replace ht : 0 < t := ht
  have h1 : ¬ t ≤ 0 := by omega
  cases b <;> simp [playerUpdateFearState, h1, hh]

/-- Witness for C7: active fear with timer 4 under heroism total 2
expires on this very update with the wears-off side effects fired, and
no activation side effects fire. -/
theorem C7_fear_suppressed_by_heroism_witness :
    (playerUpdateFearState 2 ⟨4, true⟩).activated = false ∧
    (playerUpdateFearState 2 ⟨4, true⟩).state = ⟨0, false⟩ ∧
    (playerUpdateFearState 2 ⟨4, true⟩).deactivated = true := by
  obtain ⟨h1, _, h3⟩ := C7_fear_suppressed_by_heroism ⟨4, true⟩ 2 (by decide) (by decide)
  exact ⟨h1, (h3 rfl).1, (h3 rfl).2⟩

theorem regenhp_clamp (percent mhp : Int) (s : RegenState) :
    (regenhp percent mhp s).1.chp ≤ mhp ∧
    ((regenhp percent mhp s).1.chp = mhp → (regenhp percent mhp s).1.chpFrac = 0) := by
  simp only [regenhp]
  split_ifs <;> omega

theorem regenmana_clamp (percent mana : Int) (s : ManaRegenState) :
    (regenmana percent mana s).1.cmana ≤ mana ∧
    ((regenmana percent mana s).1.cmana = mana →
      (regenmana percent mana s).1.cmanaFrac = 0) := by
  simp only [regenmana]
  split_ifs <;> omega

/-- C4: on return from `regenhp` (and its mana twin `regenmana`) the
current value never exceeds the maximum, and whenever current equals
the maximum the 16.16 fractional accumulator is exactly 0 — no partial
carry survives past full. Holds for every input state and rate. -/
theorem C4_regen_clamp_invariant (percent mhp mana : Int)
    (s : RegenState) (m : ManaRegenState) :
    ((regenhp percent mhp s).1.chp ≤ mhp ∧
     ((regenhp percent mhp s).1.chp = mhp →
       (regenhp percent mhp s).1.chpFrac = 0)) ∧
    ((regenmana percent mana m).1.cmana ≤ mana ∧
     ((regenmana percent mana m).1.cmana = mana →
       (regenmana percent mana m).1.cmanaFrac = 0)) :=
  ⟨regenhp_clamp percent mhp s, regenmana_clamp percent mana m⟩

/-- Witness for C4: a large rate forces the clamp; starting at 9/10 hp
the call ends with hp = max and a zero fractional accumulator. -/
theorem C4_regen_clamp_invariant_witness :
    (regenhp 131072 10 ⟨9, 0⟩).1.chp ≤ 10 ∧
    (regenhp 131072 10 ⟨9, 0⟩).1.chpFrac = 0 :=
  ⟨(C4_regen_clamp_invariant 131072 10 10 ⟨9, 0⟩ ⟨0, 0⟩).1.1,
   (C4_regen_clamp_invariant 131072 10 10 ⟨9, 0⟩ ⟨0, 0⟩).1.2 (by decide)⟩

/-- C5 counterexample: with rate 0, current 0 strictly below maximum 10
and fractional accumulator 65000, a single `regenhp` call raises
current to 1: the positive `PLAYER_REGEN_HPBASE` bias is added even at
rate 0 and carries past 2^16, so "repeated calls with rate 0 never
change current" is false on the code. -/
theorem C5_rate_zero_changes_current :
    (0 : Int) < 10 ∧ (regenhp 0 10 ⟨0, 65000⟩).1.chp = 1 := by
  exact ⟨by decide, by decide⟩

theorem regenhp_rate_zero_step (mhp : Int) (s : RegenState)
    (hlt : s.chp < mhp) (hlo : 0 ≤ s.chp) (hhi : s.chp ≤ 32767)
    (hfrac : s.chpFrac + 1442 < 65536) :
    (regenhp 0 mhp s).1 = ⟨s.chp, s.chpFrac + 1442⟩ := by
  obtain ⟨chp, frac⟩ := s
  replace hlt : chp < mhp := hlt
  replace hlo : (0 : Int) ≤ chp := hlo
  replace hhi : chp ≤ 32767 := hhi
  replace hfrac : frac + 1442 < 65536 := hfrac
  have e1 : Int.ediv (mhp * 0 + PLAYER_REGEN_HPBASE) 65536 = 0 := by
    simp [PLAYER_REGEN_HPBASE]
    decide
  have e2 : Int.emod (mhp * 0 + PLAYER_REGEN_HPBASE) 65536 = 1442 := by
    simp [PLAYER_REGEN_HPBASE]
    decide
  simp only [regenhp, e1, e2, toInt16]
  split_ifs <;> simp_all <;> omega

/-- C5 (amended): with rate 0, `regenhp` still adds the positive bias
`PLAYER_REGEN_HPBASE` (1442) to the fractional accumulator on every
call; the current value stays unchanged exactly as long as the
accumulated bias has not yet overflowed 2^16 — `n` iterated calls from
a valid `int16_t` state strictly below maximum leave current untouched
and leave `frac + n * 1442` in the accumulator whenever that sum stays
below 65536. (The original claim — current never changes for any number
of calls — is refuted by `C5_rate_zero_changes_current`.) -/
theorem C5_rate_zero_amended (mhp : Int) (s : RegenState) (n : Nat)
    (hlt : s.chp < mhp) (hlo : 0 ≤ s.chp) (hhi : s.chp ≤ 32767)
    (hfrac : s.chpFrac + n * 1442 < 65536) :
    regenhpIter 0 mhp s n = ⟨s.chp, s.chpFrac + n * 1442⟩ := by
  induction n generalizing s with
  | zero => simp [regenhpIter]
  | succ n ih =>
    have hstep := regenhp_rate_zero_step mhp s hlt hlo hhi (by omega)
    rw [regenhpIter, hstep]
    rw [ih ⟨s.chp, s.chpFrac + 1442⟩ hlt hlo hhi (by simp; omega)]
    simp
    omega

/-- Witness for C5 (amended): three rate-0 calls from hp 5 of 20 with
accumulator 100 leave hp at 5 and the accumulator at 100 + 3 * 1442. -/
theorem C5_rate_zero_amended_witness :
    regenhpIter 0 20 ⟨5, 100⟩ 3 = ⟨5, 100 + 3 * 1442⟩ :=
  C5_rate_zero_amended 20 ⟨5, 100⟩ 3 (by decide) (by decide) (by decide) (by decide)

/-- C6: the per-turn regeneration step calls `regenhp` only when the
poison gate is false (`poisoned < 1`) — any positive poison timer
suppresses hp regeneration entirely — while the `regenmana` decision
is independent of the poison timer (it is gated only on
`cmana < mana`). -/
theorem C6_regen_poison_gate :
    (∀ (regenerate searchStatus : Bool) (rest poisoned chp mhp cmana mana amount : Int),
      1 ≤ poisoned →
      (playerUpdateRegeneration regenerate searchStatus
        rest poisoned chp mhp cmana mana amount).2.1 = false) ∧
    (∀ (regenerate searchStatus : Bool) (rest poisoned chp mhp cmana mana amount : Int),
      (playerUpdateRegeneration regenerate searchStatus
        rest poisoned chp mhp cmana mana amount).2.1 = true →
      poisoned < 1 ∧ chp < mhp) ∧
    (∀ (regenerate searchStatus : Bool) (rest p p' chp mhp cmana mana amount : Int),
      (playerUpdateRegeneration regenerate searchStatus
        rest p chp mhp cmana mana amount).2.2 =
      (playerUpdateRegeneration regenerate searchStatus
        rest p' chp mhp cmana mana amount).2.2) := by
  refine ⟨?_, ?_, ?_⟩
  · intro regenerate searchStatus rest poisoned chp mhp cmana mana amount hp
    simp only [playerUpdateRegeneration, decide_eq_false_iff_not, not_and]
    intro hlt
    omega
  · intro regenerate searchStatus rest poisoned chp mhp cmana mana amount h
    simpa only [playerUpdateRegeneration, decide_eq_true_eq] using h
  · intro regenerate searchStatus rest p p' chp mhp cmana mana amount
    rfl

/-- Witness for C6 at concrete inputs: with poison timer 5 the hp
regeneration call is skipped, and the mana decision at poison 5 equals
the decision at poison 0. -/
theorem C6_regen_poison_gate_witness :
    (playerUpdateRegeneration false false 0 5 3 10 2 8 197).2.1 = false ∧
    (playerUpdateRegeneration false false 0 5 3 10 2 8 197).2.2 =
      (playerUpdateRegeneration false false 0 0 3 10 2 8 197).2.2 :=
  ⟨C6_regen_poison_gate.1 false false 0 5 3 10 2 8 197 (by decide),
   C6_regen_poison_gate.2.2 false false 0 5 0 3 10 2 8 197⟩

/-- C3 counterexample: the digit keys "1","0","0" yield the final count
100 with no bell ring — the accumulated count is not capped at 99 (the
guard only rejects digits once the counter already exceeds 99, so
counts up to 999 are accepted). -/
theorem C3_count_not_capped_at_99 :
    (repeatCountFinal [49, 48, 48]).1 = 100 ∧
    ¬ (repeatCountFinal [49, 48, 48]).1 ≤ 99 ∧
    (repeatCountFinal [49, 48, 48]).2 = 0 := by decide

/-- C3 (amended): the repeat-count parser accumulates a base-10 count
from digit keys; a digit arriving while the count already exceeds 99
rings the warning bell and leaves the count unchanged (so final counts
up to 999 are reachable — the cap claimed at 99 is refuted by
`C3_count_not_capped_at_99`); DELETE/backspace replaces the count by
count div 10; a zero final count is normalised to 99; digits "1","5"
yield 15, and backspace after "15" yields 1. -/
theorem C3_repeat_count_amended (counter bells c : Nat) (rest : List Nat)
    (hd : 48 ≤ c ∧ c ≤ 57) :
    (99 < counter →
      countLoop counter bells (c :: rest) = countLoop counter (bells + 1) rest) ∧
    (counter ≤ 99 →
      countLoop counter bells (c :: rest) =
        countLoop (counter * 10 + (c - 48)) bells rest) ∧
    (∀ ks, countLoop counter bells (DELETE :: ks) =
      countLoop (counter / 10) bells ks) ∧
    (repeatCountFinal [49, 53]).1 = 15 ∧
    (repeatCountFinal [49, 53, DELETE]).1 = 1 ∧
    (repeatCountFinal [48]).1 = 99 := by
  obtain ⟨h1, h2⟩ := hd
  have hne1 : ¬ (c = DELETE ∨ c = CTRL_KEY 72) := by
    simp only [DELETE, CTRL_KEY]
    omega
  refine ⟨?_, ?_, ?_, by decide, by decide, by decide⟩
  · intro hgt
    simp only [countLoop]
    rw [if_neg hne1, if_pos ⟨h1, h2⟩, if_pos hgt]
  · intro hle
    simp only [countLoop]
    rw [if_neg hne1, if_pos ⟨h1, h2⟩, if_neg (by omega)]
  · intro ks
    simp [countLoop]

/-- Witness for C3 (amended): a digit arriving at counter 100 rings the
bell and leaves the counter unchanged, and "1","5" still yields 15. -/
theorem C3_repeat_count_amended_witness :
    countLoop 100 0 [53] = (100, 1, []) ∧ (repeatCountFinal [49, 53]).1 = 15 := by
  obtain ⟨w1, _, _, w4, _, _⟩ := C3_repeat_count_amended 100 0 53 [] (by decide)
  refine ⟨?_, w4⟩
  rw [w1 (by decide)]
  decide

/-- C8 counterexample: the allow-list does not permit counts on most
inventory actions — inventory list i (105), drop d (100), wear w
(119), equipment list e (101), take-off T (84) and exchange X (88) are
all forbidden, and a counted "5i" is rejected with a free turn, no
installed count and the invalid-count message, refuting the claim that
the allow-list permits counts on most inventory actions. -/
theorem C8_inventory_count_rejected :
    valid_countcommand 105 = false ∧ valid_countcommand 100 = false ∧
    valid_countcommand 119 = false ∧ valid_countcommand 101 = false ∧
    valid_countcommand 84 = false ∧ valid_countcommand 88 = false ∧
    commandCountCheck 5 105 = (true, 32, 0, true) := by decide

/-- C8 (amended): every command with a positive repeat count that is
not in the static allow-list is rejected with the "Invalid command with
a count." message, a free turn and no installed repeat count, while an
allowed command installs the count; the allow-list forbids counts on
quit Q, save ^X, help ? and version v, permits them on movement
(b j n h l y k u), searching s, and resting (R and period) — but most
inventory actions (i, d, w, e, T, X) are also forbidden, not permitted
as claimed (see `C8_inventory_count_rejected`). -/
theorem C8_count_allowlist_amended (counter cmd : Nat)
    (hc : 0 < counter) (hv : valid_countcommand cmd = false) :
    commandCountCheck counter cmd = (true, 32, 0, true) ∧
    (∀ cmd', valid_countcommand cmd' = true →
      commandCountCheck counter cmd' = (false, cmd', counter, false)) ∧
    valid_countcommand 81 = false ∧
    valid_countcommand 24 = false ∧
    valid_countcommand 63 = false ∧
    valid_countcommand 118 = false ∧
    (valid_countcommand 98 = true ∧ valid_countcommand 106 = true ∧
     valid_countcommand 110 = true ∧ valid_countcommand 104 = true ∧
     valid_countcommand 108 = true ∧ valid_countcommand 121 = true ∧
     valid_countcommand 107 = true ∧ valid_countcommand 117 = true) ∧
    valid_countcommand 115 = true ∧
    valid_countcommand 82 = true ∧ valid_countcommand 46 = true := by
  refine ⟨?_, ?_, by decide, by decide, by decide, by decide,
    ⟨by decide, by decide, by decide, by decide,
     by decide, by decide, by decide, by decide⟩, by decide, by decide, by decide⟩
  · simp [commandCountCheck, hc, hv]
  · intro cmd' hv'
    simp [commandCountCheck, hc, hv']

/-- Witness for C8 (amended): quit Q (81) with repeat count 7 is
rejected with a free turn, the space command and no installed count. -/
theorem C8_count_allowlist_amended_witness :
    commandCountCheck 7 81 = (true, 32, 0, true) :=
  (C8_count_allowlist_amended 7 81 (by decide) (by decide)).1

theorem inkeyLoop_commandCount (cg cs so : Bool) (s : InkeyState)
    (input : List Nat) :
    (inkeyLoop cg cs so s input).2.1.commandCount = s.commandCount := by
  induction input with
  | nil =>
    simp only [inkeyLoop]
    split_ifs <;> rfl
  | cons c rest ih =>
    simp only [inkeyLoop]
    split_ifs <;> simp_all

theorem inkeyLoop_no_ctrl_r (cg cs so : Bool) (s : InkeyState)
    (input : List Nat) (k : Nat)
    (h : (inkeyLoop cg cs so s input).1 = .key k) : k ≠ CTRL_KEY 82 := by
  induction input with
  | nil =>
    simp only [inkeyLoop] at h
    split_ifs at h <;> simp_all [ESCAPE, CTRL_KEY] <;> omega
  | cons c rest ih =>
    simp only [inkeyLoop] at h
    split_ifs at h <;> simp_all

theorem inkeyLoop_skips_ctrl_r (cg cs so : Bool) (s : InkeyState)
    (pre : List Nat) (c : Nat) (rest : List Nat)
    (hpre : ∀ x ∈ pre, x = CTRL_KEY 82) (hc : c ≠ CTRL_KEY 82) :
    inkeyLoop cg cs so s (pre ++ c :: rest) = (.key c, s, false) := by
  induction pre with
  | nil => simp [inkeyLoop, hc]
  | cons p ps ih =>
    have hp : p = CTRL_KEY 82 := hpre p (by simp)
    simp only [List.cons_append, inkeyLoop, hp]
    simp only [ne_eq, not_true_eq_false, if_false]
    exact ih fun x hx => hpre x (by simp [hx])

/-- C9: when the keypress reader hits end of input with a generated,
unsaved character, each occurrence clears the message flag, increments
`eof_flag`, raises a disturb and returns the ESCAPE key in place of a
real keypress; once the occurrence counter passes the retry threshold
of 100 the reader instead performs the emergency "panic save" and
terminates the process. -/
theorem C9_eof_escalation (s : InkeyState) (saveOk : Bool) :
    (s.eofFlag + 1 ≤ 100 →
      inkey true false saveOk [] s =
        (.key ESCAPE, ⟨s.eofFlag + 1, false, 0⟩, true)) ∧
    (100 < s.eofFlag + 1 →
      inkey true false saveOk [] s =
        (.exitPanic saveOk, ⟨s.eofFlag + 1, false, 0⟩, true)) := by
  constructor
  · intro h
    have hc : ¬ (100 < s.eofFlag + 1) := by omega
    simp [inkey, inkeyLoop, hc]
  · intro h
    simp [inkey, inkeyLoop, h]

/-- Witness for C9: at `eof_flag` 0 an EOF returns ESCAPE with a
disturb; at `eof_flag` 100 the next EOF takes the panic-save exit. -/
theorem C9_eof_escalation_witness :
    inkey true false true [] ⟨0, true, 5⟩ = (.key ESCAPE, ⟨1, false, 0⟩, true) ∧
    inkey true false true [] ⟨100, true, 5⟩ =
      (.exitPanic true, ⟨101, false, 0⟩, true) :=
  ⟨(C9_eof_escalation ⟨0, true, 5⟩ true).1 (by decide),
   (C9_eof_escalation ⟨100, true, 5⟩ true).2 (by decide)⟩

/-- C10: every `inkey` call first resets the pending repeat count
`command_count` to 0; it never returns the CTRL-R code — a CTRL-R
keypress is silently consumed (screen refresh, terminal
re-initialisation) and reading continues until some other key (or EOF,
claim C9) arrives, so on a stream of CTRL-R presses followed by
another key, that key is returned with the state otherwise untouched. -/
theorem C10_inkey_resets_count_consumes_ctrl_r
    (cg cs so : Bool) (input : List Nat) (s : InkeyState)
    (pre : List Nat) (c : Nat) (rest : List Nat)
    (hpre : ∀ x ∈ pre, x = CTRL_KEY 82) (hc : c ≠ CTRL_KEY 82) :
    (inkey cg cs so input s).2.1.commandCount = 0 ∧
    (∀ k, (inkey cg cs so input s).1 = .key k → k ≠ CTRL_KEY 82) ∧
    inkey cg cs so (pre ++ c :: rest) s =
      (.key c, { s with commandCount := 0 }, false) :=
  ⟨inkeyLoop_commandCount cg cs so { s with commandCount := 0 } input,
   fun k hk => inkeyLoop_no_ctrl_r cg cs so { s with commandCount := 0 } input k hk,
   inkeyLoop_skips_ctrl_r cg cs so { s with commandCount := 0 } pre c rest hpre hc⟩

/-- Witness for C10: two CTRL-R presses followed by the key 65 return
65, with the pending repeat count 7 reset to 0. -/
theorem C10_inkey_resets_count_consumes_ctrl_r_witness :
    (inkey true false true [18, 18, 65] ⟨0, false, 7⟩).2.1.commandCount = 0 ∧
    inkey true false true [18, 18, 65] ⟨0, false, 7⟩ =
      (.key 65, ⟨0, false, 0⟩, false) := by
  obtain ⟨w1, _, w3⟩ := C10_inkey_resets_count_consumes_ctrl_r
    true false true [18, 18, 65] ⟨0, false, 7⟩ [18, 18] 65 []
    (by decide) (by decide)
  exact ⟨w1, w3⟩
